import Mathlib

/-!
Verification of the coordinate-extraction and Excel-report core of the
ocrjasamarga backend.

The embedded functions mirror, statement by statement, the compiled Python
modules `app/routes/history.py` (function
`extract_coordinates_with_validation`, route handler
`generate_ocr_excel_from_history`) and `app/services/excel_service.py`
(functions `format_indonesian_date`, `generate_excel`).

External collaborators that live outside the embedded modules (the OCR
engine `extract_coordinates_from_image`, the enhancer
`enhance_image_for_coordinates`, the validator
`is_coordinate_in_indonesia`, the filesystem, the clock, PIL image
handling and the uuid generator) are modelled as parameters gathered in
environment structures, so every theorem quantifies over their behaviour.

Python conventions used throughout the embedding:
* a Python string is falsy exactly when it is empty, and `None` is falsy;
* a caught exception is an `Except.error`, an uncaught one escapes as the
  `Except.error` of the enclosing function;
* dictionary fields that may be absent are `Option`s.
-/

namespace OcrJasaMarga

/-! ## Coordinate extraction (`app/routes/history.py`) -/

/-- One element of the Python list `coordinates_attempts`: the tuple
`(lat, lon, source)` appended for a recognition pass that produced two
non-empty strings. -/
structure Attempt where
  lat : String
  lon : String
  source : String
  deriving Repr, DecidableEq

/-- Environment of `extract_coordinates_with_validation`: the collaborators
imported by `history.py` from the OCR service module.

* `ocr` models `extract_coordinates_from_image`; `Except.error` models the
  call raising an exception, `Except.ok` the returned `(lat, lon)` pair
  (either component may be the empty string).
* `enhance` models `enhance_image_for_coordinates`.  Per the service
  contract (spec section 4.1, enhancement failure is never fatal) it is a
  total function on paths; returning the input path unchanged is how the
  service signals that no enhanced image is available.
* `isValid` models `is_coordinate_in_indonesia`, a pure predicate. -/
structure OcrEnv where
  ocr : String → Except Unit (String × String)
  enhance : String → String
  isValid : String → String → Bool

/-- The observable outcome of one call of
`extract_coordinates_with_validation`:
the returned pair, the internal list `coordinates_attempts`, and the list
of image paths on which `extract_coordinates_from_image` was invoked, in
call order (the per-attempt record the function logs). -/
structure ExtractRun where
  result : String × String
  attempts : List Attempt
  ocrCalls : List String
  deriving Repr, DecidableEq

/-- The selection loop of the source:
`for lat, lon, source in coordinates_attempts: if
is_coordinate_in_indonesia(lat, lon): return lat, lon`.
Returns the pair of the first attempt that passes validation. -/
def selectValid (valid : String → String → Bool) : List Attempt → Option (String × String)
  | [] => none
  | a :: rest => if valid a.lat a.lon then some (a.lat, a.lon) else selectValid valid rest

/-- Embedding of `extract_coordinates_with_validation(image_path)`.

Source control flow (recovered from the compiled module):
```
enhanced_path = enhance_image_for_coordinates(image_path)
coordinates_attempts = []
try:    # attempt 1, on the original image
    lat1, lon1 = extract_coordinates_from_image(image_path)
    if lat1 and lon1:
        coordinates_attempts.append((lat1, lon1, "original"))
except Exception: pass      # logged, not re-raised
if enhanced_path != image_path:
    try:    # attempt 2, on the enhanced image
        lat2, lon2 = extract_coordinates_from_image(enhanced_path)
        if lat2 and lon2:
            coordinates_attempts.append((lat2, lon2, "enhanced"))
    except Exception: pass  # logged, not re-raised
if coordinates_attempts:
    for lat, lon, source in coordinates_attempts:
        if is_coordinate_in_indonesia(lat, lon):
            return lat, lon
    lat, lon, source = coordinates_attempts[0]
    return lat, lon
return "", ""
```
It is embedded as `extract_coordinates_with_validation` below; the two
guarded recognition blocks are the two definitions that follow.

This first one is the attempt-1 block: recognition on the original image,
recorded when it yields two non-empty strings; an exception inside the
block is caught and records nothing. -/
def attemptOriginal (env : OcrEnv) (image_path : String) : List Attempt :=
  match env.ocr image_path with
  | .ok (lat1, lon1) =>
      if lat1 ≠ "" && lon1 ≠ "" then [⟨lat1, lon1, "original"⟩] else []
  | .error _ => []

/-- The second guarded block (attempt 2): recognition on the enhanced
image, recorded when it yields two non-empty strings; an exception is
caught and records nothing. -/
def attemptEnhanced (env : OcrEnv) (enhanced_path : String) : List Attempt :=
  match env.ocr enhanced_path with
  | .ok (lat2, lon2) =>
      if lat2 ≠ "" && lon2 ≠ "" then [⟨lat2, lon2, "enhanced"⟩] else []
  | .error _ => []

def extract_coordinates_with_validation (env : OcrEnv) (image_path : String) : ExtractRun :=
  let enhanced_path := env.enhance image_path
  let runEnhanced : Bool := enhanced_path ≠ image_path
  let coordinates_attempts :=
    attemptOriginal env image_path ++
      (if runEnhanced then attemptEnhanced env enhanced_path else [])
  let calls := [image_path] ++ (if runEnhanced then [enhanced_path] else [])
  let result :=
    if coordinates_attempts ≠ [] then
      match selectValid env.isValid coordinates_attempts with
      | some p => p
      | none =>
          match coordinates_attempts with
          | a :: _ => (a.lat, a.lon)
          | [] => ("", "")
    else ("", "")
  ⟨result, coordinates_attempts, calls⟩

/-! ## Dates and the header date formatter (`app/services/excel_service.py`) -/

/-- A Python `datetime.datetime` value (only the fields the embedded code
reads). -/
structure PyDateTime where
  year : Nat
  month : Nat
  day : Nat
  hour : Nat
  minute : Nat
  second : Nat
  deriving Repr, DecidableEq

/-- Gregorian leap-year rule, as implemented by Python's `datetime`. -/
def isLeap (y : Nat) : Bool :=
  (y % 4 == 0 && y % 100 != 0) || y % 400 == 0

/-- Days in a month, as validated by the `datetime` constructor. -/
def daysInMonth (y m : Nat) : Nat :=
  if m = 2 then (if isLeap y then 29 else 28)
  else if m = 4 ∨ m = 6 ∨ m = 9 ∨ m = 11 then 30
  else 31

/-- The invariant every value produced by Python's `datetime` (in
particular `datetime.now()`) satisfies. -/
def PyDateTime.Valid (t : PyDateTime) : Prop :=
  1 ≤ t.year ∧ t.year ≤ 9999 ∧ 1 ≤ t.month ∧ t.month ≤ 12 ∧
  1 ≤ t.day ∧ t.day ≤ daysInMonth t.year t.month ∧
  t.hour < 24 ∧ t.minute < 60 ∧ t.second < 60

instance (t : PyDateTime) : Decidable t.Valid := by
  unfold PyDateTime.Valid; infer_instance

/-- Zero-padded two-digit decimal rendering (as `%m`, `%d`, `%H`, `%M`,
`%S` produce for in-range values). -/
def pad2 (n : Nat) : List Char :=
  [Nat.digitChar (n / 10 % 10), Nat.digitChar (n % 10)]

/-- Zero-padded four-digit decimal rendering (as `%Y` produces for years
up to 9999). -/
def pad4 (n : Nat) : List Char :=
  [Nat.digitChar (n / 1000 % 10), Nat.digitChar (n / 100 % 10),
   Nat.digitChar (n / 10 % 10), Nat.digitChar (n % 10)]

/-- `datetime.isoformat()` (the prefix relevant to the embedded code:
everything after the first 10 characters is sliced away before parsing). -/
def PyDateTime.isoformat (t : PyDateTime) : String :=
  String.mk (pad4 t.year ++ [Char.ofNat 45] ++ pad2 t.month ++ [Char.ofNat 45] ++ pad2 t.day
    ++ [Char.ofNat 84] ++ pad2 t.hour ++ [Char.ofNat 58] ++ pad2 t.minute
    ++ [Char.ofNat 58] ++ pad2 t.second)

/-- Numeric value of a decimal digit character, `none` otherwise. -/
def digitVal (c : Char) : Option Nat :=
  if c.isDigit then some (c.toNat - 48) else none

/-- Greedy one-or-two-digit field of `strptime` (the `%m` / `%d`
patterns); returns the value and the remaining characters. -/
def parseDigits2 : List Char → Option (Nat × List Char)
  | [] => none
  | [c1] => (digitVal c1).map fun d => (d, [])
  | c1 :: c2 :: rest =>
    match digitVal c1, digitVal c2 with
    | some d1, some d2 => some (10 * d1 + d2, rest)
    | some d1, none => some (d1, c2 :: rest)
    | none, _ => none

/-- `datetime.strptime(s, "%Y-%m-%d")`: exactly four year digits, a
hyphen, one or two month digits, a hyphen, one or two day digits, nothing
else; the constructed date must be a real calendar date with a positive
year.  `Except.error` models the `ValueError` raised otherwise. -/
def strptime_Ymd (s : String) : Except Unit PyDateTime :=
  match s.data with
  | y1 :: y2 :: y3 :: y4 :: sep1 :: rest =>
    match digitVal y1, digitVal y2, digitVal y3, digitVal y4 with
    | some a, some b, some c, some d =>
      if sep1 = Char.ofNat 45 then
        match parseDigits2 rest with
        | some (m, sep2 :: rest2) =>
          if sep2 = Char.ofNat 45 then
            match parseDigits2 rest2 with
            | some (dd, []) =>
              let y := 1000 * a + 100 * b + 10 * c + d
              if 1 ≤ y ∧ 1 ≤ m ∧ m ≤ 12 ∧ 1 ≤ dd ∧ dd ≤ daysInMonth y m then
                .ok ⟨y, m, dd, 0, 0, 0⟩
              else .error ()
            | _ => .error ()
          else .error ()
        | _ => .error ()
      else .error ()
    | _, _, _, _ => .error ()
  | _ => .error ()

/-- A Python value as seen by `format_indonesian_date`: a string, or any
non-string value (only its `isinstance(_, str)` test matters). -/
inductive PyVal where
  | str (s : String)
  | nonStr
  deriving Repr, DecidableEq

/-- The dict `bulan_indonesia = {1: "Januari", ..., 12: "Desember"}` built
inside `format_indonesian_date`; `none` models a `KeyError` lookup. -/
def bulan_indonesia (m : Nat) : Option String :=
  match m with
  | 1 => some "Januari"
  | 2 => some "Februari"
  | 3 => some "Maret"
  | 4 => some "April"
  | 5 => some "Mei"
  | 6 => some "Juni"
  | 7 => some "Juli"
  | 8 => some "Agustus"
  | 9 => some "September"
  | 10 => some "Oktober"
  | 11 => some "November"
  | 12 => some "Desember"
  | _ => none

/-- The f-string
`f"{date_obj.day} {bulan_indonesia[date_obj.month]} {date_obj.year}"`;
errors exactly when the dict lookup raises `KeyError`. -/
def formatDateObj (t : PyDateTime) : Except Unit String :=
  match bulan_indonesia t.month with
  | some nm => .ok (toString t.day ++ " " ++ nm ++ " " ++ toString t.year)
  | none => .error ()

/-- Embedding of `format_indonesian_date(date_str)`.

Source:
```
try:
    if isinstance(date_str, str) and len(date_str) >= 10:
        date_obj = datetime.strptime(date_str[:10], "%Y-%m-%d")
    else:
        date_obj = datetime.now()
    bulan_indonesia = {1: "Januari", ..., 12: "Desember"}
    formatted_date = f"{date_obj.day} {bulan_indonesia[date_obj.month]} {date_obj.year}"
    return formatted_date
except Exception as e:
    logger.warning(f"Error formatting date {date_str}: {e}")
    today = datetime.now()
    bulan_indonesia = {1: "Januari", ..., 12: "Desember"}
    return f"{today.day} {bulan_indonesia[today.month]} {today.year}"
```
The clock `datetime.now()` is the parameter `now`.  The returned `Bool`
records whether the `except` handler ran (i.e. whether the warning was
logged).  The outer `Except` layer is where an exception escaping the
function would surface: the handler body is not itself guarded, so a
`KeyError` there (impossible for a real clock value) propagates. -/
def format_indonesian_date (now : PyDateTime) (date_str : PyVal) : Except Unit (String × Bool) :=
  let date_obj : Except Unit PyDateTime :=
    match date_str with
    | .str s => if s.length ≥ 10 then strptime_Ymd (s.take 10) else .ok now
    | .nonStr => .ok now
  let tryBlock : Except Unit String :=
    match date_obj with
    | .ok d => formatDateObj d
    | .error e => .error e
  match tryBlock with
  | .ok s => .ok (s, false)
  | .error _ =>
    match formatDateObj now with
    | .ok s => .ok (s, true)
    | .error e => .error e

/-- The fixed 12-entry month-name mapping as the spec words it: a list
whose m-th entry (1-based) is the local-language name of month m.
Stated from the spec, for comparison with the dict of the source. -/
def specMonthNames : List String :=
  ["Januari", "Februari", "Maret", "April", "Mei", "Juni",
   "Juli", "Agustus", "September", "Oktober", "November", "Desember"]

/-! ## Report assembly (`generate_excel` in `app/services/excel_service.py`) -/

/-- Spreadsheet columns touched by the service (the letters of the
f-string cell references `f"B{row}"`, ..., `f"J{row}"`, plus the header
cells `C2` and `J4`). -/
inductive Col where
  | B | C | D | E | F | G | H | I | J
  deriving Repr, DecidableEq

/-- A cell reference: the f-strings `f"B{row}"` etc. denote a (column,
row) pair. -/
structure CellRef where
  col : Col
  row : Nat
  deriving Repr, DecidableEq

/-- A value written to a worksheet cell: the service writes strings, and
the sequence-number cell may receive the integer default `i + 1`. -/
inductive Val where
  | str (s : String)
  | num (n : Nat)
  deriving Repr, DecidableEq

/-- One element of the Python list `data`: an entry dict as read by
`generate_excel` (a key that may be absent is an `Option`). -/
structure Entry where
  no : Option Val := none
  jalur : Option String := none
  latitude : Option String := none
  longitude : Option String := none
  kondisi : Option String := none
  keterangan : Option String := none
  foto_path : Option String := none
  tanggal_inspeksi : Option String := none
  tanggal : Option String := none
  created_at : Option String := none
  nama_aset : Option String := none
  id_aset : Option String := none
  deriving Repr, DecidableEq

/-- Python string truthiness of an optional dict value (`None` and `""`
are falsy). -/
def truthy : Option String → Bool
  | none => false
  | some s => s ≠ ""

/-- `str.lower()` (ASCII case folding suffices for the compared
literals; mapping the character list models `str.lower` and keeps the
definition kernel-computable). -/
def pyLower (s : String) : String := String.mk (s.data.map Char.toLower)

/-- `str.strip()`: drop leading and trailing whitespace (kept at the
character-list level so the definition is kernel-computable). -/
def pyStrip (s : String) : String :=
  String.mk (((s.data.dropWhile Char.isWhitespace).reverse.dropWhile Char.isWhitespace).reverse)

/-- External collaborators of `generate_excel`: filesystem, PIL, uuid and
clock.

* `templateExists` models `Path("uploads/template.xlsx").exists()`.
* `fileExists` models `os.path.exists`.
* `imageOpenOk p` models whether `Image.open(p)` / `thumbnail` succeed
  (before the temporary file is written); `imageEmbedOk p` whether the
  subsequent `ExcelImage` / `add_image` step succeeds.  A `false` is the
  exception caught by the per-image `except` block.
* `saveOk` models whether `wb.save(save_path)` succeeds (an unwritable
  output location raises there).
* `uuid i` models the `uuid.uuid4().hex` drawn while processing entry
  `i`. -/
structure ExcelEnv where
  templateExists : Bool
  fileExists : String → Bool
  imageOpenOk : String → Bool
  imageEmbedOk : String → Bool
  saveOk : Bool
  now : PyDateTime
  uuid : Nat → String

/-- Failure of a whole `generate_excel` call.

* `templateNotFound` is the `FileNotFoundError` raised when the template
  is missing.
* `writeFailure` is the exception escaping `wb.save`.
* `headerDateError` is an exception escaping the date-header `except`
  handler (possible only for an invalid clock value). -/
inductive GenErr where
  | templateNotFound (msg : String)
  | writeFailure
  | headerDateError
  deriving Repr, DecidableEq

/-- The observable outcome of one `generate_excel` call: the cell writes
in program order, the image anchors passed to `ws.add_image`, the
temporary image files created and deleted, and the returned path or the
escaping exception. -/
structure GenResult where
  writes : List (CellRef × Val)
  images : List (CellRef × String)
  tempCreated : List String
  tempDeleted : List String
  outcome : Except GenErr String
  deriving Repr

/-- `start_row = 9` (data rows begin at row 9 of the template). -/
def start_row : Nat := 9

/-- The fixed condition marker glyph written to columns F/G/H. -/
def markerGlyph : String := "√"

/-- The D-column value for one entry:
`lat_clean = str(latitude).strip()` if `latitude and str(latitude).strip()`
else the explicitly written empty string. -/
def cleanCoord (v : Option String) : String :=
  match v with
  | some s => if s ≠ "" && pyStrip s ≠ "" then pyStrip s else ""
  | none => ""

/-- The eight text-cell writes the loop body performs for entry `e` at
0-based index `i` (row `start_row + i`), in program order:
```
row = start_row + i
no_value = entry.get("no", i + 1)
jalur_value = entry.get("jalur", "")
ws[f"B{row}"] = no_value
ws[f"C{row}"] = jalur_value
latitude = entry.get("latitude")
longitude = entry.get("longitude")
if latitude and str(latitude).strip():
    ws[f"D{row}"] = str(latitude).strip()
else:
    ws[f"D{row}"] = ""
... (same for E / longitude) ...
kondisi = entry.get("kondisi", "").lower()
ws[f"F{row}"] = "√" if kondisi == "baik" else ""
ws[f"G{row}"] = "√" if kondisi == "sedang" else ""
ws[f"H{row}"] = "√" if kondisi == "buruk" else ""
ws[f"I{row}"] = entry.get("keterangan", "")
``` -/
def rowWrites (i : Nat) (e : Entry) : List (CellRef × Val) :=
  let row := start_row + i
  let kondisi := pyLower (e.kondisi.getD "")
  [ (⟨Col.B, row⟩, e.no.getD (Val.num (i + 1))),
    (⟨Col.C, row⟩, Val.str (e.jalur.getD "")),
    (⟨Col.D, row⟩, Val.str (cleanCoord e.latitude)),
    (⟨Col.E, row⟩, Val.str (cleanCoord e.longitude)),
    (⟨Col.F, row⟩, Val.str (if kondisi = "baik" then markerGlyph else "")),
    (⟨Col.G, row⟩, Val.str (if kondisi = "sedang" then markerGlyph else "")),
    (⟨Col.H, row⟩, Val.str (if kondisi = "buruk" then markerGlyph else "")),
    (⟨Col.I, row⟩, Val.str (e.keterangan.getD "")) ]

/-- The temporary image path `temp_dir / f"temp_img_{uuid.uuid4().hex}.png"`
for the image of entry `i`. -/
def tempImagePath (env : ExcelEnv) (i : Nat) : String :=
  "excel_images/temp_img_" ++ env.uuid i ++ ".png"

/-- Whether the image branch of the loop body runs for entry `e`:
`if foto_path and os.path.exists(str(foto_path)):`. -/
def imageBranch (env : ExcelEnv) (e : Entry) : Bool :=
  truthy e.foto_path && env.fileExists (e.foto_path.getD "")

/-- Temporary files created while processing entry `e` at index `i`
(appended to `temp_files_to_cleanup` right after `img.save`): one when
the image branch runs and `Image.open`/`thumbnail`/`save` succeed. -/
def rowTemps (env : ExcelEnv) (i : Nat) (e : Entry) : List String :=
  if imageBranch env e && env.imageOpenOk (e.foto_path.getD "") then
    [tempImagePath env i]
  else []

/-- Image anchors passed to `ws.add_image(excel_img, f"J{row}")` for entry
`e` at index `i`: one when the whole per-image `try` body succeeds.  A
failure anywhere in that body is caught by its `except` block and only
logged. -/
def rowImages (env : ExcelEnv) (i : Nat) (e : Entry) : List (CellRef × String) :=
  if imageBranch env e && env.imageOpenOk (e.foto_path.getD "")
      && env.imageEmbedOk (e.foto_path.getD "") then
    [(⟨Col.J, start_row + i⟩, tempImagePath env i)]
  else []

/-- The cell writes of the whole `for i, entry in enumerate(data)` loop,
starting at index `i`. -/
def loopWrites : Nat → List Entry → List (CellRef × Val)
  | _, [] => []
  | i, e :: rest => rowWrites i e ++ loopWrites (i + 1) rest

/-- The temporary files created by the whole loop, starting at index
`i`. -/
def loopTemps (env : ExcelEnv) : Nat → List Entry → List String
  | _, [] => []
  | i, e :: rest => rowTemps env i e ++ loopTemps env (i + 1) rest

/-- The image anchors of the whole loop, starting at index `i`. -/
def loopImages (env : ExcelEnv) : Nat → List Entry → List (CellRef × String)
  | _, [] => []
  | i, e :: rest => rowImages env i e ++ loopImages env (i + 1) rest

/-- The header-date source value:
```
tanggal_jadwal = ""
if data and len(data) > 0:
    tanggal_jadwal = data[0].get("tanggal_inspeksi", "")
    if not tanggal_jadwal: tanggal_jadwal = data[0].get("tanggal", "")
    if not tanggal_jadwal: tanggal_jadwal = data[0].get("created_at", "")
if not tanggal_jadwal:
    tanggal_jadwal = datetime.now().isoformat()
``` -/
def tanggalJadwal (env : ExcelEnv) (data : List Entry) : String :=
  let fromEntry :=
    match data with
    | [] => ""
    | e0 :: _ =>
      let t1 := e0.tanggal_inspeksi.getD ""
      let t2 := if t1 = "" then e0.tanggal.getD "" else t1
      if t2 = "" then e0.created_at.getD "" else t2
  if fromEntry = "" then env.now.isoformat else fromEntry

/-- The value written to the header cell `J4`, or the exception escaping
the date block.  Source:
```
try:
    ... compute tanggal_jadwal ...
    formatted_date = format_indonesian_date(tanggal_jadwal)
    ws["J4"] = f": {formatted_date}"
except Exception as date_error:
    logger.error(...)
    today_formatted = format_indonesian_date(datetime.now().isoformat())
    ws["J4"] = f": {today_formatted}"
```
(the handler body is unguarded, so a second failure escapes the
function). -/
def headerDateWrite (env : ExcelEnv) (data : List Entry) : Except Unit String :=
  match format_indonesian_date env.now (.str (tanggalJadwal env data)) with
  | .ok (s, _) => .ok (": " ++ s)
  | .error _ =>
    match format_indonesian_date env.now (.str env.now.isoformat) with
    | .ok (s, _) => .ok (": " ++ s)
    | .error _ => .error ()

/-- The value written to the header cell `C2`.  Source:
```
try:
    nama_aset = ""
    if data and len(data) > 0:
        nama_aset = data[0].get("nama_aset", "")
        if not nama_aset: nama_aset = data[0].get("id_aset", "")
    if not nama_aset: nama_aset = "Aset Tidak Diketahui"
    ws["C2"] = nama_aset
except Exception: ws["C2"] = "Nama Aset"
```
(nothing in the guarded body can raise, so the handler is dead). -/
def headerAsetWrite (data : List Entry) : String :=
  let fromEntry :=
    match data with
    | [] => ""
    | e0 :: _ =>
      let n1 := e0.nama_aset.getD ""
      if n1 = "" then e0.id_aset.getD "" else n1
  if fromEntry = "" then "Aset Tidak Diketahui" else fromEntry

/-- `filename = f"output-enhanced-{datetime.now().strftime('%Y%m%d-%H%M%S')}.xlsx"`. -/
def strftimeStamp (t : PyDateTime) : String :=
  String.mk (pad4 t.year ++ pad2 t.month ++ pad2 t.day ++ [Char.ofNat 45]
    ++ pad2 t.hour ++ pad2 t.minute ++ pad2 t.second)

/-- The output filename of one generation. -/
def outputFilename (env : ExcelEnv) : String :=
  "output-enhanced-" ++ strftimeStamp env.now ++ ".xlsx"

/-- Embedding of `generate_excel(data, save_dir)`.

Source skeleton (recovered from the compiled module):
```
template_path = Path("uploads/template.xlsx")
if not template_path.exists():
    raise FileNotFoundError(f"Template Excel tidak ditemukan: {template_path}")
wb = load_workbook(template_path); ws = wb.active
start_row = 9
... header date block (ws["J4"]) ...
... header asset block (ws["C2"]) ...
temp_dir = Path(tempfile.gettempdir()) / "excel_images"; temp_dir.mkdir(exist_ok=True)
temp_files_to_cleanup = []
try:
    for i, entry in enumerate(data):
        row = start_row + i
        ... eight cell writes (rowWrites) ...
        foto_path = entry.get("foto_path")
        if foto_path and os.path.exists(str(foto_path)):
            try:
                img = Image.open(str(foto_path)); img.thumbnail(...)
                img_temp_path = temp_dir / f"temp_img_{uuid.uuid4().hex}.png"
                img.save(str(img_temp_path), "PNG")
                temp_files_to_cleanup.append(img_temp_path)
                excel_img = ExcelImage(str(img_temp_path))
                excel_img.width = 120; excel_img.height = 90
                ws.add_image(excel_img, f"J{row}")
            except Exception: logger.error(...)   # row completed without photo
        else: logger.warning(...)
    save_dir.mkdir(parents=True, exist_ok=True)
    filename = f"output-enhanced-{datetime.now().strftime('%Y%m%d-%H%M%S')}.xlsx"
    save_path = save_dir / filename
    wb.save(save_path)
    return save_path
finally:
    for temp_file in temp_files_to_cleanup:
        try:
            if temp_file.exists(): temp_file.unlink()
        except Exception: logger.warning(...)
```
The `finally` block runs on the success exit and on the exception exit
alike, and deletes every file in `temp_files_to_cleanup` (the embedding
models `unlink` on an existing just-created file as succeeding). -/
def generate_excel (env : ExcelEnv) (data : List Entry) (save_dir : String) : GenResult :=
  if env.templateExists then
    match headerDateWrite env data with
    | .error _ =>
      { writes := [], images := [], tempCreated := [], tempDeleted := [],
        outcome := .error .headerDateError }
    | .ok j4 =>
      let headerWrites : List (CellRef × Val) :=
        [ (⟨Col.J, 4⟩, Val.str j4), (⟨Col.C, 2⟩, Val.str (headerAsetWrite data)) ]
      let temps := loopTemps env 0 data
      let outcome : Except GenErr String :=
        if env.saveOk then .ok (save_dir ++ "/" ++ outputFilename env)
        else .error .writeFailure
      { writes := headerWrites ++ loopWrites 0 data,
        images := loopImages env 0 data,
        tempCreated := temps,
        tempDeleted := temps,
        outcome := outcome }
  else
    { writes := [], images := [], tempCreated := [], tempDeleted := [],
      outcome := .error (.templateNotFound "Template Excel tidak ditemukan: uploads/template.xlsx") }

/-! ## The history regeneration route
(`generate_ocr_excel_from_history` in `app/routes/history.py`) -/

/-- One element of the stored history list `doc["data"]` as read by the
route (a key that may be absent is an `Option`). -/
structure HistItem where
  foto_path : Option String := none
  jalur : Option String := none
  kondisi : Option String := none
  keterangan : Option String := none
  deriving Repr, DecidableEq

/-- The history document: `data` is `some items` when the key `"data"`
is present and holds a list, `none` otherwise. -/
structure HistDoc where
  data : Option (List HistItem)
  deriving Repr, DecidableEq

/-- An HTTP error response of the route: 404, 400, or 500 with its
detail string. -/
inductive HttpErr where
  | notFound (detail : String)
  | badRequest (detail : String)
  | internal (detail : String)
  deriving Repr, DecidableEq

/-- The successful `FileResponse` of the route. -/
structure RouteOk where
  path : String
  filename : String
  media_type : String
  deriving Repr, DecidableEq

/-- The observable outcome of one route call: the `full_entries` list
passed on to `generate_excel`, and the response. -/
structure RouteRun where
  entries : List Entry
  response : Except HttpErr RouteOk

/-- The loop body of the route for one history item at 1-based index `i`
(`for i, item in enumerate(history_data, 1)`):
```
foto_path = item.get("foto_path", "")
if not foto_path or not Path(foto_path).exists():
    logger.warning(f"Image file missing for entry {i}: {foto_path}")
    lintang, bujur = "", ""
    foto_path = ""
else:
    lintang, bujur = extract_coordinates_with_validation(str(foto_path))
    if not lintang or not bujur:
        logger.warning(f"Failed OCR for entry {i}: {foto_path}")
        lintang, bujur = "", ""
entry_complete = {"no": i, "jalur": item.get("jalur", ""),
                  "latitude": lintang, "longitude": bujur,
                  "kondisi": item.get("kondisi", ""),
                  "keterangan": item.get("keterangan", ""),
                  "foto_path": foto_path, "image": foto_path}
full_entries.append(entry_complete)
```
(The dict key `"image"` duplicates `"foto_path"` and is never read by
`generate_excel`, so the embedding records `foto_path` only.  The
per-item `except` handler appends a fully degraded entry; nothing in the
embedded body can raise, so it is unreachable here.)  Note every branch
appends exactly one entry. -/
def routeEntry (oenv : OcrEnv) (xenv : ExcelEnv) (i : Nat) (item : HistItem) : Entry :=
  let foto_path := item.foto_path.getD ""
  if foto_path = "" || !xenv.fileExists foto_path then
    { no := some (Val.num i), jalur := some (item.jalur.getD ""),
      latitude := some "", longitude := some "",
      kondisi := some (item.kondisi.getD ""), keterangan := some (item.keterangan.getD ""),
      foto_path := some "" }
  else
    let r := (extract_coordinates_with_validation oenv foto_path).result
    let pair := if r.1 = "" || r.2 = "" then ("", "") else r
    { no := some (Val.num i), jalur := some (item.jalur.getD ""),
      latitude := some pair.1, longitude := some pair.2,
      kondisi := some (item.kondisi.getD ""), keterangan := some (item.keterangan.getD ""),
      foto_path := some foto_path }

/-- The whole route loop, from 1-based index `i`. -/
def routeEntries (oenv : OcrEnv) (xenv : ExcelEnv) : Nat → List HistItem → List Entry
  | _, [] => []
  | i, item :: rest => routeEntry oenv xenv i item :: routeEntries oenv xenv (i + 1) rest

/-- The standard spreadsheet MIME type of the `FileResponse`. -/
def xlsxMime : String :=
  "application/vnd.openxmlformats-officedocument.spreadsheetml.sheet"

/-- Embedding of the route handler `generate_ocr_excel_from_history`.

Source skeleton:
```
try:
    object_id = ObjectId(item_id)                 # InvalidId is a ValueError
    doc = history_collection.find_one({"_id": object_id, "admin_id": admin_id})
    if not doc: raise HTTPException(404, "History not found")
    if "data" not in doc or not isinstance(doc["data"], list):
        raise HTTPException(400, "No data found in history")
    history_data = doc["data"]
    if not history_data: raise HTTPException(400, "History data is empty")
    full_entries = []
    for i, item in enumerate(history_data, 1): ... # routeEntry, always appends
    if not full_entries:
        raise HTTPException(400, "No valid data to generate Excel")
    save_dir = UPLOAD_DIR; save_dir.mkdir(parents=True, exist_ok=True)
    output_path = generate_excel(full_entries, save_dir)
    return FileResponse(path=str(output_path),
        filename=f"ocr-history-{item_id[:8]}-{datetime.now().strftime('%Y%m%d-%H%M%S')}.xlsx",
        media_type="application/vnd...sheet")
except HTTPException: raise
except ValueError: raise HTTPException(400, "Invalid history ID format")
except Exception as e:
    raise HTTPException(500, f"Failed to generate OCR Excel from history: {e}")
```
`objectIdOk` models whether `ObjectId(item_id)` accepts the id;
`doc` is the `find_one` result; `save_dir` the configured upload
directory. -/
def generate_ocr_excel_from_history (oenv : OcrEnv) (xenv : ExcelEnv)
    (objectIdOk : Bool) (doc : Option HistDoc) (item_id : String) (save_dir : String) :
    RouteRun :=
  if !objectIdOk then
    ⟨[], .error (.badRequest "Invalid history ID format")⟩
  else
    match doc with
    | none => ⟨[], .error (.notFound "History not found")⟩
    | some d =>
      match d.data with
      | none => ⟨[], .error (.badRequest "No data found in history")⟩
      | some history_data =>
        if history_data = [] then
          ⟨[], .error (.badRequest "History data is empty")⟩
        else
          let full_entries := routeEntries oenv xenv 1 history_data
          if full_entries = [] then
            ⟨full_entries, .error (.badRequest "No valid data to generate Excel")⟩
          else
            match (generate_excel xenv full_entries save_dir).outcome with
            | .ok output_path =>
              ⟨full_entries, .ok
                ⟨output_path,
                 "ocr-history-" ++ item_id.take 8 ++ "-"
                   ++ strftimeStamp xenv.now ++ ".xlsx",
                 xlsxMime⟩⟩
            | .error (.templateNotFound msg) =>
              ⟨full_entries, .error (.internal
                ("Failed to generate OCR Excel from history: " ++ msg))⟩
            | .error _ =>
              ⟨full_entries, .error (.internal
                "Failed to generate OCR Excel from history: ")⟩

/-! ## Concrete environments and inputs used by witnesses -/

/-- Concrete OCR environment used by witnesses and counterexamples:
recognition succeeds on both the original image and its enhanced copy,
and the original pair is geographically valid. -/
def demoOcrEnv : OcrEnv where
  ocr := fun p =>
    if p = "img.png" then .ok ("-6.2", "106.8")
    else if p = "enh-img.png" then .ok ("1.0", "2.0")
    else .error ()
  enhance := fun p => if p = "img.png" then "enh-img.png" else p
  isValid := fun la lo => la = "-6.2" && lo = "106.8"

/-- Concrete OCR environment on which recognition always fails. -/
def demoOcrEnvFail : OcrEnv where
  ocr := fun _ => .error ()
  enhance := fun p => p
  isValid := fun _ _ => false

/-- A stored history document with a single item whose image file is
missing on disk (`demoExcelEnvC3.fileExists` is constantly false). -/
def demoHistDoc : HistDoc :=
  ⟨some [⟨some "x.jpg", some "A", some "baik", some "catatan"⟩]⟩

/-- Concrete Excel environment: template present, no image files on
disk, saving succeeds, a fixed clock value. -/
def demoExcelEnvC3 : ExcelEnv where
  templateExists := true
  fileExists := fun _ => false
  imageOpenOk := fun _ => true
  imageEmbedOk := fun _ => true
  saveOk := true
  now := ⟨2023, 11, 6, 10, 30, 0⟩
  uuid := fun _ => "u"

/-- The same environment one second later. -/
def demoExcelEnvC3b : ExcelEnv :=
  { demoExcelEnvC3 with now := ⟨2023, 11, 6, 10, 30, 1⟩ }

/-- The same environment with the template file missing. -/
def demoExcelEnvNoTemplate : ExcelEnv :=
  { demoExcelEnvC3 with templateExists := false }

/-- A concrete two-entry batch; the second entry has an empty latitude
string. -/
def demoBatch : List Entry :=
  [ { jalur := some "Jalur A", latitude := some "-6.2", longitude := some "106.8",
      kondisi := some "baik", keterangan := some "ok" },
    { jalur := some "Jalur B", latitude := some "", kondisi := some "sedang" } ]

/-! ## Theorems about coordinate extraction (C1, C2) -/

/-- The selection loop returns exactly the first attempt passing
validation. -/
theorem selectValid_eq_find (valid : String → String → Bool) (l : List Attempt) :
    selectValid valid l = (l.find? fun a => valid a.lat a.lon).map fun a => (a.lat, a.lon) := by
  induction l with
  | nil => rfl
  | cons a rest ih =>
    by_cases h : valid a.lat a.lon = true
    · simp [selectValid, List.find?, h]
    · simp only [Bool.not_eq_true] at h
      simp [selectValid, List.find?, h, ih]

/-- The attempt-1 block records either nothing or a single original
attempt with non-empty coordinates. -/
theorem attemptOriginal_shape (env : OcrEnv) (p : String) :
    attemptOriginal env p = [] ∨
      ∃ la lo, attemptOriginal env p = [⟨la, lo, "original"⟩] ∧ la ≠ "" ∧ lo ≠ "" := by
  unfold attemptOriginal
  cases env.ocr p with
  | error e => exact Or.inl rfl
  | ok pair =>
    rcases pair with ⟨la, lo⟩
    by_cases h : (la ≠ "" && lo ≠ "") = true
    · rw [Bool.and_eq_true, decide_eq_true_eq, decide_eq_true_eq] at h
      exact Or.inr ⟨la, lo, by simp [h.1, h.2], h.1, h.2⟩
    · left
      simp only [if_neg h]

/-- The attempt-2 block records either nothing or a single enhanced
attempt with non-empty coordinates. -/
theorem attemptEnhanced_shape (env : OcrEnv) (p : String) :
    attemptEnhanced env p = [] ∨
      ∃ la lo, attemptEnhanced env p = [⟨la, lo, "enhanced"⟩] ∧ la ≠ "" ∧ lo ≠ "" := by
  unfold attemptEnhanced
  cases env.ocr p with
  | error e => exact Or.inl rfl
  | ok pair =>
    rcases pair with ⟨la, lo⟩
    by_cases h : (la ≠ "" && lo ≠ "") = true
    · rw [Bool.and_eq_true, decide_eq_true_eq, decide_eq_true_eq] at h
      exact Or.inr ⟨la, lo, by simp [h.1, h.2], h.1, h.2⟩
    · left
      simp only [if_neg h]

/-- The recorded attempt list is the attempt-1 record followed by the
attempt-2 record (the latter only when the enhanced pass ran). -/
theorem extract_attempts_eq (env : OcrEnv) (p : String) :
    (extract_coordinates_with_validation env p).attempts =
      attemptOriginal env p ++
        (if (env.enhance p ≠ p : Bool) then attemptEnhanced env (env.enhance p) else []) := rfl

/-- Every recorded attempt has two non-empty coordinate strings (only
such pairs are appended to `coordinates_attempts`). -/
theorem attempts_nonempty_coords (env : OcrEnv) (p : String) :
    ∀ a ∈ (extract_coordinates_with_validation env p).attempts, a.lat ≠ "" ∧ a.lon ≠ "" := by
  intro a ha
  rw [extract_attempts_eq, List.mem_append] at ha
  rcases ha with ha | ha
  · rcases attemptOriginal_shape env p with h | ⟨la, lo, h, h1, h2⟩ <;> rw [h] at ha
    · simp at ha
    · simp only [List.mem_singleton] at ha
      subst ha
      exact ⟨h1, h2⟩
  · rcases hrun : (decide (env.enhance p ≠ p)) with _ | _ <;> rw [hrun] at ha
    · simp at ha
    · simp only [if_true] at ha
      rcases attemptEnhanced_shape env (env.enhance p) with h | ⟨la, lo, h, h1, h2⟩ <;>
        rw [h] at ha
      · simp at ha
      · simp only [List.mem_singleton] at ha
        subst ha
        exact ⟨h1, h2⟩

/-- The sources of the recorded attempts, in order: the original pass is
recorded before the enhanced one. -/
theorem attempts_source_order (env : OcrEnv) (p : String) :
    (extract_coordinates_with_validation env p).attempts.map Attempt.source = [] ∨
    (extract_coordinates_with_validation env p).attempts.map Attempt.source = ["original"] ∨
    (extract_coordinates_with_validation env p).attempts.map Attempt.source = ["enhanced"] ∨
    (extract_coordinates_with_validation env p).attempts.map Attempt.source
      = ["original", "enhanced"] := by
  rw [extract_attempts_eq]
  rcases attemptOriginal_shape env p with h1 | ⟨la, lo, h1, _, _⟩ <;>
    rcases hrun : (decide (env.enhance p ≠ p)) with _ | _
  · simp [h1, hrun]
  · rcases attemptEnhanced_shape env (env.enhance p) with h2 | ⟨la2, lo2, h2, _, _⟩ <;>
      simp [h1, h2, hrun]
  · simp [h1, hrun]
  · rcases attemptEnhanced_shape env (env.enhance p) with h2 | ⟨la2, lo2, h2, _, _⟩ <;>
      simp [h1, h2, hrun]

/-- The returned pair is computed from the recorded attempt list by the
selection block of the source. -/
theorem extract_result_eq (env : OcrEnv) (p : String) :
    (extract_coordinates_with_validation env p).result =
      (if (extract_coordinates_with_validation env p).attempts ≠ [] then
        match selectValid env.isValid (extract_coordinates_with_validation env p).attempts with
        | some q => q
        | none =>
          match (extract_coordinates_with_validation env p).attempts with
          | a :: _ => (a.lat, a.lon)
          | [] => ("", "")
      else ("", "")) := rfl

/-- C1.  The extraction result obeys the three-step selection policy: the
first attempt (original recorded before enhanced) whose pair passes
geographic validation wins; failing that, the first syntactically valid
attempt; failing that, the empty result. -/
theorem extract_selection_policy (env : OcrEnv) (p : String) :
    let r := extract_coordinates_with_validation env p
    (∀ a, (r.attempts.find? fun a => env.isValid a.lat a.lon) = some a →
        r.result = (a.lat, a.lon)) ∧
    ((r.attempts.find? fun a => env.isValid a.lat a.lon) = none →
        ∀ a rest, r.attempts = a :: rest → r.result = (a.lat, a.lon)) ∧
    (r.attempts = [] → r.result = ("", "")) ∧
    (r.attempts.map Attempt.source = [] ∨ r.attempts.map Attempt.source = ["original"] ∨
      r.attempts.map Attempt.source = ["enhanced"] ∨
      r.attempts.map Attempt.source = ["original", "enhanced"]) := by
  intro r
  refine ⟨?_, ?_, ?_, attempts_source_order env p⟩
  · intro a hfind
    have hne : r.attempts ≠ [] := by
      intro hnil
      rw [hnil] at hfind
      simp [List.find?] at hfind
    have := extract_result_eq env p
    rw [show (extract_coordinates_with_validation env p) = r from rfl] at this
    rw [this, if_pos hne, selectValid_eq_find, hfind]
    rfl
  · intro hfind a rest hcons
    have hne : r.attempts ≠ [] := by rw [hcons]; simp
    have := extract_result_eq env p
    rw [show (extract_coordinates_with_validation env p) = r from rfl] at this
    rw [this, if_pos hne, selectValid_eq_find, hfind, hcons]
    rfl
  · intro hnil
    have := extract_result_eq env p
    rw [show (extract_coordinates_with_validation env p) = r from rfl] at this
    rw [this, if_neg (by simp [hnil])]

/-- Witness for C1: on the concrete environment the original attempt is
found valid and returned. -/
theorem extract_selection_policy_witness :
    (extract_coordinates_with_validation demoOcrEnv "img.png").result = ("-6.2", "106.8") := by
  have h := (extract_selection_policy demoOcrEnv "img.png").1
  exact h ⟨"-6.2", "106.8", "original"⟩ (by decide)

/-- Counterexample for C2: in `demoOcrEnv` attempt 1 is present and
passes geographic validation, yet the recognition pass on the enhanced
image is still executed (the source guards attempt 2 only by
`enhanced_path != image_path`, not by the validity of attempt 1). -/
theorem enhanced_pass_counterexample :
    let r := extract_coordinates_with_validation demoOcrEnv "img.png"
    r.attempts = [⟨"-6.2", "106.8", "original"⟩, ⟨"1.0", "2.0", "enhanced"⟩] ∧
    demoOcrEnv.isValid "-6.2" "106.8" = true ∧
    r.ocrCalls = ["img.png", "enh-img.png"] ∧
    r.result = ("-6.2", "106.8") := by
  refine ⟨by decide, by decide, by decide, by decide⟩

/-- C2 (amended).  Recognition always runs on the original image first;
the enhancement step always runs, and the recognition pass on the
enhanced image is executed exactly when enhancement produced a path
different from the original, regardless of attempt 1; the empty pair is
returned exactly when no attempt produced a syntactically valid pair
(and, extraction being a total function of the environment, no attempt
failure raises to the caller). -/
theorem enhanced_pass_execution (env : OcrEnv) (p : String) :
    let r := extract_coordinates_with_validation env p
    r.ocrCalls.head? = some p ∧
    (r.ocrCalls = if env.enhance p ≠ p then [p, env.enhance p] else [p]) ∧
    (r.result = ("", "") ↔ r.attempts = []) := by
  intro r
  refine ⟨?_, ?_, ?_, ?_⟩
  · show ((extract_coordinates_with_validation env p).ocrCalls).head? = some p
    simp only [extract_coordinates_with_validation]
    split <;> rfl
  · show (extract_coordinates_with_validation env p).ocrCalls = _
    by_cases h : env.enhance p = p
    · simp [extract_coordinates_with_validation, h]
    · simp [extract_coordinates_with_validation, h]
  · show (extract_coordinates_with_validation env p).result = ("", "") →
        (extract_coordinates_with_validation env p).attempts = []
    intro hres
    cases hatts : (extract_coordinates_with_validation env p).attempts with
    | nil => rfl
    | cons a rest =>
      exfalso
      have hne : (extract_coordinates_with_validation env p).attempts ≠ [] := by
        rw [hatts]; simp
      have heq := extract_result_eq env p
      rw [if_pos hne] at heq
      cases hfind : (extract_coordinates_with_validation env p).attempts.find?
          (fun a => env.isValid a.lat a.lon) with
      | some b =>
        have hb : b ∈ (extract_coordinates_with_validation env p).attempts :=
          List.mem_of_find?_eq_some hfind
        have hbne := (attempts_nonempty_coords env p b hb).1
        rw [selectValid_eq_find, hfind] at heq
        have hr2 : (extract_coordinates_with_validation env p).result = (b.lat, b.lon) := by
          rw [heq]; simp
        rw [hres] at hr2
        exact hbne (congrArg Prod.fst hr2.symm)
      | none =>
        have ha : a ∈ (extract_coordinates_with_validation env p).attempts := by
          rw [hatts]; exact List.mem_cons_self a rest
        have hane := (attempts_nonempty_coords env p a ha).1
        rw [selectValid_eq_find, hfind, hatts] at heq
        have hr2 : (extract_coordinates_with_validation env p).result = (a.lat, a.lon) := by
          rw [heq]; simp
        rw [hres] at hr2
        exact hane (congrArg Prod.fst hr2.symm)
  · show (extract_coordinates_with_validation env p).attempts = [] →
        (extract_coordinates_with_validation env p).result = ("", "")
    intro hnil
    have heq := extract_result_eq env p
    rw [if_neg (by simp [hnil])] at heq
    exact heq

/-! ## Theorems about the header date formatter (C5, C9) -/

/-- Every in-range month is in the domain of the source dict. -/
theorem bulan_ok (m : Nat) (h1 : 1 ≤ m) (h2 : m ≤ 12) :
    ∃ nm, bulan_indonesia m = some nm := by
  interval_cases m <;> exact ⟨_, rfl⟩

/-- For months in range the source dict agrees with the spec's 12-entry
list. -/
theorem bulan_indonesia_eq_spec (m : Nat) (h1 : 1 ≤ m) (h2 : m ≤ 12) :
    bulan_indonesia m = specMonthNames.get? (m - 1) := by
  interval_cases m <;> rfl

/-- The format step never raises on a date value with an in-range
month. -/
theorem formatDateObj_ok (t : PyDateTime) (h1 : 1 ≤ t.month) (h2 : t.month ≤ 12) :
    ∃ s, formatDateObj t = .ok s := by
  obtain ⟨nm, hnm⟩ := bulan_ok t.month h1 h2
  exact ⟨toString t.day ++ " " ++ nm ++ " " ++ toString t.year, by simp [formatDateObj, hnm]⟩

/-- A successful `strptime` yields an in-range month (the constructor
validation of `datetime`). -/
theorem strptime_Ymd_month_range (s : String) (d : PyDateTime)
    (h : strptime_Ymd s = .ok d) : 1 ≤ d.month ∧ d.month ≤ 12 := by
  unfold strptime_Ymd at h
  repeat' split at h
  all_goals try (exact Except.noConfusion h)
  simp only [] at h
  split at h
  · rename_i hcond
    have hd := Except.ok.inj h
    subst hd
    simp only []
    omega
  · exact Except.noConfusion h

/-- Totality of the embedded formatter, given an in-range clock month:
the result is always `Except.ok`. -/
theorem format_indonesian_date_total (now : PyDateTime) (input : PyVal)
    (h1 : 1 ≤ now.month) (h2 : now.month ≤ 12) :
    ∃ s warned, format_indonesian_date now input = .ok (s, warned) := by
  obtain ⟨fb, hfb⟩ := formatDateObj_ok now h1 h2
  cases input with
  | nonStr => exact ⟨fb, false, by simp [format_indonesian_date, hfb]⟩
  | str s =>
    by_cases hlen : s.length ≥ 10
    · cases hp : strptime_Ymd (s.take 10) with
      | ok d =>
        obtain ⟨hm1, hm2⟩ := strptime_Ymd_month_range _ _ hp
        obtain ⟨sd, hsd⟩ := formatDateObj_ok d hm1 hm2
        exact ⟨sd, false, by simp [format_indonesian_date, hlen, hp, hsd]⟩
      | error e =>
        exact ⟨fb, true, by simp [format_indonesian_date, hlen, hp, hfb]⟩
    · exact ⟨fb, false, by simp [format_indonesian_date, hlen, hfb]⟩

/-- C5.  On any date value with day d, month m ∈ 1..12 and year y the
header date formatter produces the string "d MonthName y", MonthName
being the m-th entry of the fixed 12-entry Indonesian month list (e.g.
day 6, month 11, year 2023 gives "6 November 2023"); and when no date
string is supplied (the empty string is shorter than a date) the current
date is formatted instead. -/
theorem header_date_format (t : PyDateTime) (h1 : 1 ≤ t.month) (h2 : t.month ≤ 12) :
    (∃ nm, specMonthNames.get? (t.month - 1) = some nm ∧
        formatDateObj t = .ok (toString t.day ++ " " ++ nm ++ " " ++ toString t.year)) ∧
    (∀ now : PyDateTime, 1 ≤ now.month → now.month ≤ 12 →
        ∃ s, formatDateObj now = .ok s ∧
          format_indonesian_date now (.str "") = .ok (s, false)) := by
  constructor
  · obtain ⟨nm, hnm⟩ := bulan_ok t.month h1 h2
    refine ⟨nm, ?_, ?_⟩
    · rw [← bulan_indonesia_eq_spec t.month h1 h2, hnm]
    · simp [formatDateObj, hnm]
  · intro now hn1 hn2
    obtain ⟨s, hs⟩ := formatDateObj_ok now hn1 hn2
    refine ⟨s, hs, ?_⟩
    simp [format_indonesian_date, hs]

/-- Witness for C5 at the spec's own example: day 6, month 11, year 2023
formats as "6 November 2023", and a missing date string falls back to
the current date. -/
theorem header_date_format_witness :
    formatDateObj ⟨2023, 11, 6, 0, 0, 0⟩ = .ok "6 November 2023" ∧
    format_indonesian_date ⟨2023, 11, 6, 0, 0, 0⟩ (.str "")
      = .ok ("6 November 2023", false) := by
  have h := header_date_format ⟨2023, 11, 6, 0, 0, 0⟩ (by decide) (by decide)
  obtain ⟨⟨nm, hnm, hfmt⟩, hdef⟩ := h
  obtain ⟨s, hs, hcall⟩ := hdef ⟨2023, 11, 6, 0, 0, 0⟩ (by decide) (by decide)
  have hx : specMonthNames.get? (11 - 1) = some "November" := rfl
  have hnm2 : nm = "November" := by
    rw [hx] at hnm
    exact (Option.some.inj hnm).symm
  subst hnm2
  have hfmt2 : formatDateObj ⟨2023, 11, 6, 0, 0, 0⟩ = .ok "6 November 2023" := hfmt
  have hs2 : s = "6 November 2023" := by
    rw [hfmt2] at hs
    exact (Except.ok.inj hs).symm
  exact ⟨hfmt2, by rw [hcall, hs2]⟩

/-- C9.  The header date formatter is total: a string that does not
parse as a date has its `strptime` exception caught, the warning flag
set and the current-date string returned; a non-string value takes the
type-check branch (no exception arises) and also yields the
current-date string; no input makes the function raise. -/
theorem header_date_formatter_total (now : PyDateTime) (input : PyVal)
    (h1 : 1 ≤ now.month) (h2 : now.month ≤ 12) :
    (∃ s warned, format_indonesian_date now input = .ok (s, warned)) ∧
    (∀ s, input = .str s → s.length ≥ 10 → strptime_Ymd (s.take 10) = .error () →
        ∃ fb, formatDateObj now = .ok fb ∧
          format_indonesian_date now input = .ok (fb, true)) ∧
    (input = .nonStr →
        ∃ fb, formatDateObj now = .ok fb ∧
          format_indonesian_date now input = .ok (fb, false)) := by
  obtain ⟨fb, hfb⟩ := formatDateObj_ok now h1 h2
  refine ⟨format_indonesian_date_total now input h1 h2, ?_, ?_⟩
  · intro s hin hlen hp
    subst hin
    exact ⟨fb, hfb, by simp [format_indonesian_date, hlen, hp, hfb]⟩
  · intro hin
    subst hin
    exact ⟨fb, hfb, by simp [format_indonesian_date, hfb]⟩

/-- Witness for C9: the malformed schedule date "not-a-date-x" (10+
characters, unparseable) is caught and formatted from the clock value,
with the warning flag set. -/
theorem header_date_formatter_total_witness :
    format_indonesian_date ⟨2024, 5, 1, 0, 0, 0⟩ (.str "not-a-date-x")
      = .ok ("1 Mei 2024", true) := by
  have h := (header_date_formatter_total ⟨2024, 5, 1, 0, 0, 0⟩
    (.str "not-a-date-x") (by decide) (by decide)).2.1
  obtain ⟨fb, hfb, hres⟩ := h "not-a-date-x" rfl (by decide) rfl
  have hfb2 : fb = "1 Mei 2024" := by
    have h2 : formatDateObj ⟨2024, 5, 1, 0, 0, 0⟩ = .ok "1 Mei 2024" := rfl
    rw [h2] at hfb
    exact (Except.ok.inj hfb).symm
  rw [hres, hfb2]

/-! ## Workbook lookup infrastructure -/

/-- Last-write-wins evaluation of a write list: the value a cell holds
after all assignments `ws[ref] = v` have been applied in order. -/
def lastWrite (r : CellRef) : Option Val → List (CellRef × Val) → Option Val
  | acc, [] => acc
  | acc, w :: l => lastWrite r (if w.1 = r then some w.2 else acc) l

/-- The value of cell `r` in the finished workbook. -/
def cellGet (l : List (CellRef × Val)) (r : CellRef) : Option Val :=
  lastWrite r none l

theorem lastWrite_acc (r : CellRef) (l : List (CellRef × Val)) :
    ∀ acc, lastWrite r acc l =
      match lastWrite r none l with
      | some v => some v
      | none => acc := by
  induction l with
  | nil => intro acc; rfl
  | cons w l ih =>
    intro acc
    show lastWrite r (if w.1 = r then some w.2 else acc) l = _
    by_cases hw : w.1 = r
    · rw [if_pos hw]
      have h1 := ih (some w.2)
      have h2 : lastWrite r none (w :: l) = lastWrite r (some w.2) l := by
        show lastWrite r (if w.1 = r then some w.2 else none) l = _
        rw [if_pos hw]
      rw [h1, h2, h1]
      cases lastWrite r none l <;> rfl
    · rw [if_neg hw]
      have h2 : lastWrite r none (w :: l) = lastWrite r none l := by
        show lastWrite r (if w.1 = r then some w.2 else none) l = _
        rw [if_neg hw]
      rw [ih acc, h2]

theorem cellGet_append (l1 l2 : List (CellRef × Val)) (r : CellRef) :
    cellGet (l1 ++ l2) r =
      match cellGet l2 r with
      | some v => some v
      | none => cellGet l1 r := by
  unfold cellGet
  have : ∀ acc, lastWrite r acc (l1 ++ l2) = lastWrite r (lastWrite r acc l1) l2 := by
    induction l1 with
    | nil => intro acc; rfl
    | cons w l ih => intro acc; exact ih _
  rw [this none, lastWrite_acc r l2]

theorem cellGet_of_notMem (l : List (CellRef × Val)) (r : CellRef)
    (h : ∀ w ∈ l, w.1 ≠ r) : cellGet l r = none := by
  induction l with
  | nil => rfl
  | cons w l ih =>
    show lastWrite r (if w.1 = r then some w.2 else none) l = none
    rw [if_neg (h w (List.mem_cons_self w l))]
    exact ih fun w hw => h w (List.mem_cons_of_mem _ hw)

/-- Every write of the loop body for entry `i` targets row
`start_row + i`. -/
theorem rowWrites_row (i : Nat) (e : Entry) :
    ∀ w ∈ rowWrites i e, w.1.row = start_row + i := by
  intro w hw
  simp only [rowWrites, List.mem_cons, List.not_mem_nil, or_false] at hw
  rcases hw with h | h | h | h | h | h | h | h <;> subst h <;> rfl

/-- Every write of the loop starting at index `i` targets a row at least
`start_row + i`. -/
theorem loopWrites_row_ge (data : List Entry) :
    ∀ i, ∀ w ∈ loopWrites i data, start_row + i ≤ w.1.row := by
  induction data with
  | nil => intro i w hw; simp [loopWrites] at hw
  | cons e rest ih =>
    intro i w hw
    rw [loopWrites, List.mem_append] at hw
    rcases hw with hw | hw
    · exact le_of_eq (rowWrites_row i e w hw).symm
    · have := ih (i + 1) w hw
      omega

/-- The loop writes for the entry at position `k` (0-based) are exactly
its `rowWrites`, also after all later rows have been written: later rows
never touch row `start_row + i + k`. -/
theorem cellGet_loopWrites (data : List Entry) :
    ∀ i k e, data.get? k = some e → ∀ c : Col,
      cellGet (loopWrites i data) ⟨c, start_row + (i + k)⟩ =
        cellGet (rowWrites (i + k) e) ⟨c, start_row + (i + k)⟩ := by
  induction data with
  | nil => intro i k e he; simp at he
  | cons e0 rest ih =>
    intro i k e he c
    rw [loopWrites, cellGet_append]
    cases k with
    | zero =>
      simp only [List.get?] at he
      cases he
      have hnone : cellGet (loopWrites (i + 1) rest) ⟨c, start_row + (i + 0)⟩ = none := by
        apply cellGet_of_notMem
        intro w hw heq
        have := loopWrites_row_ge rest (i + 1) w hw
        rw [heq] at this
        simp only [CellRef.mk.injEq] at this ⊢
        omega
      rw [hnone]
      simp
    | succ k =>
      simp only [List.get?] at he
      have hkey := ih (i + 1) k e he c
      have harr : i + 1 + k = i + (k + 1) := by omega
      rw [harr] at hkey
      rw [hkey]
      cases hv : cellGet (rowWrites (i + (k + 1)) e) ⟨c, start_row + (i + (k + 1))⟩ with
      | some v => rfl
      | none =>
        have h0 : cellGet (rowWrites i e0) ⟨c, start_row + (i + (k + 1))⟩ = none := by
          apply cellGet_of_notMem
          intro w hw heq
          have := rowWrites_row i e0 w hw
          rw [heq] at this
          simp only at this
          omega
        rw [h0]

/-- Direct computation of each column of a finished row. -/
theorem cellGet_rowWrites (i : Nat) (e : Entry) :
    let row := start_row + i
    let kondisi := pyLower (e.kondisi.getD "")
    cellGet (rowWrites i e) ⟨Col.B, row⟩ = some (e.no.getD (Val.num (i + 1))) ∧
    cellGet (rowWrites i e) ⟨Col.C, row⟩ = some (Val.str (e.jalur.getD "")) ∧
    cellGet (rowWrites i e) ⟨Col.D, row⟩ = some (Val.str (cleanCoord e.latitude)) ∧
    cellGet (rowWrites i e) ⟨Col.E, row⟩ = some (Val.str (cleanCoord e.longitude)) ∧
    cellGet (rowWrites i e) ⟨Col.F, row⟩
      = some (Val.str (if kondisi = "baik" then markerGlyph else "")) ∧
    cellGet (rowWrites i e) ⟨Col.G, row⟩
      = some (Val.str (if kondisi = "sedang" then markerGlyph else "")) ∧
    cellGet (rowWrites i e) ⟨Col.H, row⟩
      = some (Val.str (if kondisi = "buruk" then markerGlyph else "")) ∧
    cellGet (rowWrites i e) ⟨Col.I, row⟩ = some (Val.str (e.keterangan.getD "")) := by
  refine ⟨?_, ?_, ?_, ?_, ?_, ?_, ?_, ?_⟩ <;>
    simp [rowWrites, cellGet, lastWrite]

/-! ## Theorems about report assembly (C3, C4, C6, C7, C8) -/

/-- The header date block never raises when the clock month is in range
(which `datetime.now()` guarantees): any parse failure inside
`format_indonesian_date` is already caught there. -/
theorem headerDateWrite_ok (env : ExcelEnv) (data : List Entry)
    (h1 : 1 ≤ env.now.month) (h2 : env.now.month ≤ 12) :
    ∃ s, headerDateWrite env data = .ok s := by
  obtain ⟨s, w, hs⟩ := format_indonesian_date_total env.now (.str (tanggalJadwal env data)) h1 h2
  exact ⟨": " ++ s, by simp [headerDateWrite, hs]⟩

/-- Components of a successful generation: two header writes followed by
the loop writes, loop images, and the temp lists of the loop (created
and deleted alike). -/
theorem generate_excel_unfold (env : ExcelEnv) (data : List Entry) (dir : String)
    (hT : env.templateExists = true) (h1 : 1 ≤ env.now.month) (h2 : env.now.month ≤ 12) :
    ∃ j4,
      (generate_excel env data dir).writes =
        [(⟨Col.J, 4⟩, Val.str j4), (⟨Col.C, 2⟩, Val.str (headerAsetWrite data))]
          ++ loopWrites 0 data ∧
      (generate_excel env data dir).images = loopImages env 0 data ∧
      (generate_excel env data dir).tempCreated = loopTemps env 0 data ∧
      (generate_excel env data dir).tempDeleted = loopTemps env 0 data ∧
      (generate_excel env data dir).outcome =
        (if env.saveOk then Except.ok (dir ++ "/" ++ outputFilename env)
         else Except.error GenErr.writeFailure) := by
  obtain ⟨j4, hj4⟩ := headerDateWrite_ok env data h1 h2
  exact ⟨j4, by simp [generate_excel, hT, hj4], by simp [generate_excel, hT, hj4],
    by simp [generate_excel, hT, hj4], by simp [generate_excel, hT, hj4],
    by simp [generate_excel, hT, hj4]⟩

/-- The finished-workbook value of each cell of the row of entry `i`,
for a successful generation. -/
theorem generate_excel_cell (env : ExcelEnv) (data : List Entry) (dir : String)
    (i : Nat) (e : Entry) (he : data.get? i = some e)
    (hT : env.templateExists = true) (h1 : 1 ≤ env.now.month) (h2 : env.now.month ≤ 12)
    (c : Col) :
    cellGet (generate_excel env data dir).writes ⟨c, start_row + i⟩ =
      cellGet (rowWrites i e) ⟨c, start_row + i⟩ := by
  obtain ⟨j4, hw, _, _, _, _⟩ := generate_excel_unfold env data dir hT h1 h2
  rw [hw, cellGet_append]
  have hkey := cellGet_loopWrites data 0 i e he c
  simp only [Nat.zero_add] at hkey
  rw [hkey]
  have h8 := cellGet_rowWrites i e
  cases hv : cellGet (rowWrites i e) ⟨c, start_row + i⟩ with
  | some v => rfl
  | none =>
    have hhd : cellGet [(⟨Col.J, 4⟩, Val.str j4),
        (⟨Col.C, 2⟩, Val.str (headerAsetWrite data))] ⟨c, start_row + i⟩ = none := by
      apply cellGet_of_notMem
      intro w hw2 heq
      simp only [List.mem_cons, List.not_mem_nil, or_false] at hw2
      rcases hw2 with h | h <;> subst h <;>
        (simp only [CellRef.mk.injEq, start_row] at heq; exact absurd heq.2 (by omega))
    rw [hhd]

/-- An anchor the loop adds for entry `k` appears in the loop's anchor
list. -/
theorem loopImages_mem (env : ExcelEnv) (data : List Entry) :
    ∀ i k e, data.get? k = some e →
      ∀ a ∈ rowImages env (i + k) e, a ∈ loopImages env i data := by
  induction data with
  | nil => intro i k e he; simp at he
  | cons e0 rest ih =>
    intro i k e he a ha
    rw [loopImages, List.mem_append]
    cases k with
    | zero =>
      simp only [List.get?] at he
      cases he
      exact Or.inl ha
    | succ k =>
      simp only [List.get?] at he
      right
      have := ih (i + 1) k e he a
      rw [show i + 1 + k = i + (k + 1) from by omega] at this
      exact this ha

/-- Every anchor the loop produces sits in the photo column J. -/
theorem loopImages_col (env : ExcelEnv) (data : List Entry) :
    ∀ i, ∀ a ∈ loopImages env i data, a.1.col = Col.J := by
  induction data with
  | nil => intro i a ha; simp [loopImages] at ha
  | cons e0 rest ih =>
    intro i a ha
    rw [loopImages, List.mem_append] at ha
    rcases ha with ha | ha
    · unfold rowImages at ha
      split at ha
      · simp only [List.mem_singleton] at ha
        subst ha
        rfl
      · simp at ha
    · exact ih (i + 1) a ha

/-- An optional value that is `None` or the empty string cleans to the
empty string. -/
theorem cleanCoord_of_empty (v : Option String) (h : v = none ∨ v = some "") :
    cleanCoord v = "" := by
  rcases h with h | h <;> subst h <;> simp [cleanCoord]

/-- C3.  For every batch, the entry at 0-based position i is written to
row `start_row + i` = 9 + i; each field goes to its statically assigned
column (sequence B, route C, latitude D, longitude E, condition markers
F/G/H, notes I, photo J); and an empty latitude or longitude writes an
explicit empty string to its cell rather than omitting it, so column
assignment never shifts. -/
theorem report_row_layout (env : ExcelEnv) (data : List Entry) (dir : String)
    (i : Nat) (e : Entry) (he : data.get? i = some e)
    (hT : env.templateExists = true) (h1 : 1 ≤ env.now.month) (h2 : env.now.month ≤ 12) :
    cellGet (generate_excel env data dir).writes ⟨Col.B, start_row + i⟩
      = some (e.no.getD (Val.num (i + 1))) ∧
    cellGet (generate_excel env data dir).writes ⟨Col.C, start_row + i⟩
      = some (Val.str (e.jalur.getD "")) ∧
    cellGet (generate_excel env data dir).writes ⟨Col.D, start_row + i⟩
      = some (Val.str (cleanCoord e.latitude)) ∧
    cellGet (generate_excel env data dir).writes ⟨Col.E, start_row + i⟩
      = some (Val.str (cleanCoord e.longitude)) ∧
    cellGet (generate_excel env data dir).writes ⟨Col.I, start_row + i⟩
      = some (Val.str (e.keterangan.getD "")) ∧
    (e.latitude = none ∨ e.latitude = some "" →
      cellGet (generate_excel env data dir).writes ⟨Col.D, start_row + i⟩
        = some (Val.str "")) ∧
    (e.longitude = none ∨ e.longitude = some "" →
      cellGet (generate_excel env data dir).writes ⟨Col.E, start_row + i⟩
        = some (Val.str "")) ∧
    (∀ a ∈ (generate_excel env data dir).images, a.1.col = Col.J) ∧
    ((imageBranch env e && env.imageOpenOk (e.foto_path.getD "")
        && env.imageEmbedOk (e.foto_path.getD "")) = true →
      (⟨Col.J, start_row + i⟩, tempImagePath env i) ∈ (generate_excel env data dir).images) := by
  have hcell := fun c => generate_excel_cell env data dir i e he hT h1 h2 c
  have h8 := cellGet_rowWrites i e
  obtain ⟨j4, _, him, _, _, _⟩ := generate_excel_unfold env data dir hT h1 h2
  refine ⟨?_, ?_, ?_, ?_, ?_, ?_, ?_, ?_, ?_⟩
  · rw [hcell Col.B]; exact h8.1
  · rw [hcell Col.C]; exact h8.2.1
  · rw [hcell Col.D]; exact h8.2.2.1
  · rw [hcell Col.E]; exact h8.2.2.2.1
  · rw [hcell Col.I]; exact h8.2.2.2.2.2.2.2
  · intro hemp
    rw [hcell Col.D, h8.2.2.1, cleanCoord_of_empty e.latitude hemp]
  · intro hemp
    rw [hcell Col.E, h8.2.2.2.1, cleanCoord_of_empty e.longitude hemp]
  · intro a ha
    rw [him] at ha
    exact loopImages_col env data 0 a ha
  · intro hrun
    rw [him]
    have := loopImages_mem env data 0 i e he
    simp only [Nat.zero_add] at this
    apply this
    unfold rowImages
    rw [if_pos]
    · exact List.mem_singleton.mpr rfl
    · simp only [Bool.and_eq_true] at hrun ⊢
      exact hrun

/-- Witness for C3: a concrete two-entry batch; the second entry has an
empty latitude and its D-cell holds the explicit empty string in row
10 = 9 + 1. -/
theorem report_row_layout_witness :
    cellGet (generate_excel demoExcelEnvC3 demoBatch "out").writes ⟨Col.D, 10⟩
      = some (Val.str "") ∧
    cellGet (generate_excel demoExcelEnvC3 demoBatch "out").writes ⟨Col.C, 10⟩
      = some (Val.str "Jalur B") := by
  have h := report_row_layout demoExcelEnvC3 demoBatch "out" 1
    { jalur := some "Jalur B", latitude := some "", kondisi := some "sedang" }
    (by decide) (by decide) (by decide) (by decide)
  exact ⟨h.2.2.2.2.2.1 (Or.inr rfl), h.2.1⟩

/-- C4.  For every entry whose condition value (case-insensitively) is
one of the three enum values, exactly one of the F/G/H marker cells of
that entry's row holds the fixed glyph, chosen baik→F, sedang→G,
buruk→H, and the other two are written blank. -/
theorem condition_marker_exclusive (env : ExcelEnv) (data : List Entry) (dir : String)
    (i : Nat) (e : Entry) (k : String) (he : data.get? i = some e) (hk : e.kondisi = some k)
    (hT : env.templateExists = true) (h1 : 1 ≤ env.now.month) (h2 : env.now.month ≤ 12) :
    (pyLower k = "baik" →
      cellGet (generate_excel env data dir).writes ⟨Col.F, start_row + i⟩
          = some (Val.str markerGlyph) ∧
      cellGet (generate_excel env data dir).writes ⟨Col.G, start_row + i⟩
          = some (Val.str "") ∧
      cellGet (generate_excel env data dir).writes ⟨Col.H, start_row + i⟩
          = some (Val.str "")) ∧
    (pyLower k = "sedang" →
      cellGet (generate_excel env data dir).writes ⟨Col.F, start_row + i⟩
          = some (Val.str "") ∧
      cellGet (generate_excel env data dir).writes ⟨Col.G, start_row + i⟩
          = some (Val.str markerGlyph) ∧
      cellGet (generate_excel env data dir).writes ⟨Col.H, start_row + i⟩
          = some (Val.str "")) ∧
    (pyLower k = "buruk" →
      cellGet (generate_excel env data dir).writes ⟨Col.F, start_row + i⟩
          = some (Val.str "") ∧
      cellGet (generate_excel env data dir).writes ⟨Col.G, start_row + i⟩
          = some (Val.str "") ∧
      cellGet (generate_excel env data dir).writes ⟨Col.H, start_row + i⟩
          = some (Val.str markerGlyph)) := by
  have hcell := fun c => generate_excel_cell env data dir i e he hT h1 h2 c
  have h8 := cellGet_rowWrites i e
  have hkond : pyLower (e.kondisi.getD "") = pyLower k := by rw [hk]; rfl
  refine ⟨?_, ?_, ?_⟩ <;> intro hval <;>
    refine ⟨?_, ?_, ?_⟩ <;>
    [rw [hcell Col.F, h8.2.2.2.2.1]; rw [hcell Col.G, h8.2.2.2.2.2.1];
     rw [hcell Col.H, h8.2.2.2.2.2.2.1];
     rw [hcell Col.F, h8.2.2.2.2.1]; rw [hcell Col.G, h8.2.2.2.2.2.1];
     rw [hcell Col.H, h8.2.2.2.2.2.2.1];
     rw [hcell Col.F, h8.2.2.2.2.1]; rw [hcell Col.G, h8.2.2.2.2.2.1];
     rw [hcell Col.H, h8.2.2.2.2.2.2.1]] <;>
    rw [hkond, hval] <;> simp

/-- Witness for C4: the `sedang` entry of the concrete batch marks G and
leaves F and H blank in its row. -/
theorem condition_marker_exclusive_witness :
    cellGet (generate_excel demoExcelEnvC3 demoBatch "out").writes ⟨Col.F, 10⟩
      = some (Val.str "") ∧
    cellGet (generate_excel demoExcelEnvC3 demoBatch "out").writes ⟨Col.G, 10⟩
      = some (Val.str markerGlyph) ∧
    cellGet (generate_excel demoExcelEnvC3 demoBatch "out").writes ⟨Col.H, 10⟩
      = some (Val.str "") := by
  have h := condition_marker_exclusive demoExcelEnvC3 demoBatch "out" 1
    { jalur := some "Jalur B", latitude := some "", kondisi := some "sedang" } "sedang"
    (by decide) rfl (by decide) (by decide) (by decide)
  exact h.2.1 (by decide)

/-- C6.  A missing template fails the whole call fast with the
`FileNotFoundError`-raising branch, before any cell is written, any
temporary file is created or any output is produced; and (for a real
clock value) a missing template or an unwritable output location are the
only ways a whole generation call fails. -/
theorem template_missing_fails_fast (env : ExcelEnv) (data : List Entry) (dir : String)
    (h1 : 1 ≤ env.now.month) (h2 : env.now.month ≤ 12) :
    (env.templateExists = false →
      (generate_excel env data dir).outcome
          = .error (.templateNotFound "Template Excel tidak ditemukan: uploads/template.xlsx") ∧
      (generate_excel env data dir).writes = [] ∧
      (generate_excel env data dir).images = [] ∧
      (generate_excel env data dir).tempCreated = []) ∧
    (∀ p, (generate_excel env data dir).outcome = .ok p →
      env.templateExists = true ∧ env.saveOk = true) ∧
    (∀ gerr, (generate_excel env data dir).outcome = .error gerr →
      (gerr = .templateNotFound "Template Excel tidak ditemukan: uploads/template.xlsx" ∧
        env.templateExists = false) ∨
      (gerr = .writeFailure ∧ env.saveOk = false)) := by
  by_cases hT : env.templateExists
  · obtain ⟨j4, _, _, _, _, hout⟩ := generate_excel_unfold env data dir hT h1 h2
    refine ⟨fun hF => absurd hT (by rw [hF]; simp), ?_, ?_⟩
    · intro p hp
      rw [hout] at hp
      by_cases hs : env.saveOk
      · exact ⟨hT, hs⟩
      · rw [if_neg (by simpa using hs)] at hp
        exact Except.noConfusion hp
    · intro gerr hg
      rw [hout] at hg
      by_cases hs : env.saveOk
      · rw [if_pos hs] at hg
        exact Except.noConfusion hg
      · rw [if_neg (by simpa using hs)] at hg
        exact Or.inr ⟨(Except.error.inj hg).symm, by simpa using hs⟩
  · replace hT : env.templateExists = false := by simpa using hT
    refine ⟨fun _ => ?_, ?_, ?_⟩
    · exact ⟨by simp [generate_excel, hT], by simp [generate_excel, hT],
        by simp [generate_excel, hT], by simp [generate_excel, hT]⟩
    · intro p hp
      simp [generate_excel, hT] at hp
    · intro gerr hg
      simp only [generate_excel, hT, Bool.false_eq_true, if_false] at hg
      exact Or.inl ⟨(Except.error.inj hg).symm, hT⟩

/-- Witness for C6: with the template missing the concrete call errors
with the `TemplateNotFound` message and produces no writes and no output
file. -/
theorem template_missing_fails_fast_witness :
    (generate_excel demoExcelEnvNoTemplate demoBatch "out").outcome
        = .error (.templateNotFound "Template Excel tidak ditemukan: uploads/template.xlsx") ∧
    (generate_excel demoExcelEnvNoTemplate demoBatch "out").writes = [] := by
  have h := template_missing_fails_fast demoExcelEnvNoTemplate demoBatch "out"
    (by decide) (by decide)
  obtain ⟨hout, hw, _, _⟩ := h.1 rfl
  exact ⟨hout, hw⟩

/-- C7.  On every exit path of a generation call — fail-fast on a
missing template, an exception escaping the header block, a save
failure, or success — the temporary image files created during the run
are exactly the ones deleted by the `finally` block. -/
theorem temp_cleanup_every_exit (env : ExcelEnv) (data : List Entry) (dir : String) :
    (generate_excel env data dir).tempDeleted = (generate_excel env data dir).tempCreated := by
  unfold generate_excel
  by_cases hT : env.templateExists
  · simp only [hT, if_true]
    cases headerDateWrite env data <;> rfl
  · simp only [hT, Bool.false_eq_true, if_false]

/-- C8 counterexample.  Two distinct generation calls in the same clock
second (here: different batches, identical timestamp) persist to the
same output path: the embedded `YYYYMMDD-HHMMSS` timestamp does not
guarantee distinct filenames across repeated generations. -/
theorem timestamp_uniqueness_counterexample :
    (generate_excel demoExcelEnvC3 [] "out").outcome
        = .ok "out/output-enhanced-20231106-103000.xlsx" ∧
    (generate_excel demoExcelEnvC3 demoBatch "out").outcome
        = .ok "out/output-enhanced-20231106-103000.xlsx" ∧
    ([] : List Entry) ≠ demoBatch := by
  exact ⟨rfl, rfl, by decide⟩

/-- Decimal digits are distinguished by their character rendering. -/
theorem digitChar_inj_lt10 : ∀ a, a < 10 → ∀ b, b < 10 →
    Nat.digitChar a = Nat.digitChar b → a = b := by decide

/-- Upper bound used when reading day digits back. -/
theorem daysInMonth_le (y m : Nat) : daysInMonth y m ≤ 31 := by
  unfold daysInMonth
  split
  · split <;> omega
  · split <;> omega

/-- `%Y%m%d-%H%M%S` is injective on valid datetime values. -/
theorem strftimeStamp_inj (t u : PyDateTime) (ht : t.Valid) (hu : u.Valid)
    (h : strftimeStamp t = strftimeStamp u) : t = u := by
  rcases t with ⟨ty, tm, td, tH, tM, tS⟩
  rcases u with ⟨uy, um, ud, uH, uM, uS⟩
  simp only [PyDateTime.Valid] at ht hu
  obtain ⟨hty1, hty2, htm1, htm2, htd1, htd2, htH, htM, htS⟩ := ht
  obtain ⟨huy1, huy2, hum1, hum2, hud1, hud2, huH, huM, huS⟩ := hu
  have htd3 : td ≤ 31 := le_trans htd2 (daysInMonth_le _ _)
  have hud3 : ud ≤ 31 := le_trans hud2 (daysInMonth_le _ _)
  unfold strftimeStamp pad4 pad2 at h
  replace h := congrArg String.data h
  simp only [List.cons_append, List.nil_append, List.cons.injEq, and_true, true_and] at h
  obtain ⟨e1, e2, e3, e4, e5, e6, e7, e8, e10, e11, e12, e13, e14, e15⟩ := h
  have d10 : ∀ n : Nat, n % 10 < 10 := fun n => Nat.mod_lt _ (by omega)
  have q1 := digitChar_inj_lt10 _ (d10 _) _ (d10 _) e1
  have q2 := digitChar_inj_lt10 _ (d10 _) _ (d10 _) e2
  have q3 := digitChar_inj_lt10 _ (d10 _) _ (d10 _) e3
  have q4 := digitChar_inj_lt10 _ (d10 _) _ (d10 _) e4
  have q5 := digitChar_inj_lt10 _ (d10 _) _ (d10 _) e5
  have q6 := digitChar_inj_lt10 _ (d10 _) _ (d10 _) e6
  have q7 := digitChar_inj_lt10 _ (d10 _) _ (d10 _) e7
  have q8 := digitChar_inj_lt10 _ (d10 _) _ (d10 _) e8
  have q10 := digitChar_inj_lt10 _ (d10 _) _ (d10 _) e10
  have q11 := digitChar_inj_lt10 _ (d10 _) _ (d10 _) e11
  have q12 := digitChar_inj_lt10 _ (d10 _) _ (d10 _) e12
  have q13 := digitChar_inj_lt10 _ (d10 _) _ (d10 _) e13
  have q14 := digitChar_inj_lt10 _ (d10 _) _ (d10 _) e14
  have q15 := digitChar_inj_lt10 _ (d10 _) _ (d10 _) e15
  simp only [PyDateTime.mk.injEq]
  refine ⟨by omega, by omega, by omega, by omega, by omega, by omega⟩

/-- C8 (amended).  Every successful generation persists to
`save_dir / ("output-enhanced-" ++ <YYYYMMDD-HHMMSS timestamp> ++ ".xlsx")`;
two generations whose clock values differ (at one-second granularity)
get distinct filenames, while two generations within the same second
share one. -/
theorem timestamped_filename (env1 env2 : ExcelEnv) (d1 d2 : List Entry)
    (dir1 dir2 p1 p2 : String)
    (hv1 : env1.now.Valid) (hv2 : env2.now.Valid) (hne : env1.now ≠ env2.now)
    (h1 : (generate_excel env1 d1 dir1).outcome = .ok p1)
    (h2 : (generate_excel env2 d2 dir2).outcome = .ok p2) :
    p1 = dir1 ++ "/" ++ ("output-enhanced-" ++ strftimeStamp env1.now ++ ".xlsx") ∧
    p2 = dir2 ++ "/" ++ ("output-enhanced-" ++ strftimeStamp env2.now ++ ".xlsx") ∧
    outputFilename env1 ≠ outputFilename env2 := by
  have hpath : ∀ (env : ExcelEnv) (d : List Entry) (dir p : String),
      (generate_excel env d dir).outcome = .ok p →
      p = dir ++ "/" ++ outputFilename env := by
    intro env d dir p hp
    unfold generate_excel at hp
    by_cases hT : env.templateExists
    · simp only [hT, if_true] at hp
      cases hd : headerDateWrite env d with
      | error e =>
        rw [hd] at hp
        exact Except.noConfusion hp
      | ok j4 =>
        rw [hd] at hp
        simp only [] at hp
        by_cases hs : env.saveOk
        · rw [if_pos hs] at hp
          exact (Except.ok.inj hp).symm
        · rw [if_neg (by simpa using hs)] at hp
          exact Except.noConfusion hp
    · simp only [hT, Bool.false_eq_true, if_false] at hp
      exact Except.noConfusion hp
  refine ⟨hpath env1 d1 dir1 p1 h1, hpath env2 d2 dir2 p2 h2, ?_⟩
  intro hfn
  apply hne
  apply strftimeStamp_inj env1.now env2.now hv1 hv2
  have hdata := congrArg String.data hfn
  simp only [outputFilename, String.data_append] at hdata
  have hleft := List.append_cancel_right hdata
  have hmid := List.append_cancel_left hleft
  cases hs1 : strftimeStamp env1.now with
  | mk l1 =>
    cases hs2 : strftimeStamp env2.now with
    | mk l2 =>
      rw [hs1, hs2] at hmid
      exact congrArg String.mk hmid

/-- Witness for C8 (amended): one second apart, the two concrete
environments generate distinct filenames. -/
theorem timestamped_filename_witness :
    outputFilename demoExcelEnvC3 ≠ outputFilename demoExcelEnvC3b := by
  have h := timestamped_filename demoExcelEnvC3 demoExcelEnvC3b [] [] "out" "out"
    "out/output-enhanced-20231106-103000.xlsx" "out/output-enhanced-20231106-103001.xlsx"
    (by decide) (by decide) (by decide) rfl rfl
  exact h.2.2

/-! ## Theorems about the history regeneration route (C10) -/

/-- The route loop appends exactly one entry per history item. -/
theorem routeEntries_length (oenv : OcrEnv) (xenv : ExcelEnv) :
    ∀ i items, (routeEntries oenv xenv i items).length = items.length := by
  intro i items
  induction items generalizing i with
  | nil => rfl
  | cons item rest ih => simp [routeEntries, ih]

/-- The k-th entry the loop builds comes from the k-th history item. -/
theorem routeEntries_get (oenv : OcrEnv) (xenv : ExcelEnv) :
    ∀ items i k item, items.get? k = some item →
      (routeEntries oenv xenv i items).get? k = some (routeEntry oenv xenv (i + k) item) := by
  intro items
  induction items with
  | nil => intro i k item h; simp at h
  | cons it rest ih =>
    intro i k item h
    cases k with
    | zero =>
      simp only [List.get?] at h
      cases h
      rfl
    | succ k =>
      simp only [List.get?] at h
      show (routeEntry oenv xenv i it :: routeEntries oenv xenv (i + 1) rest).get? (k + 1) = _
      simp only [List.get?]
      have := ih (i + 1) k item h
      rw [show i + 1 + k = i + (k + 1) from by omega] at this
      exact this

/-- For a non-empty history the route always passes the full entry list
on: one entry per item, whatever the generation outcome. -/
theorem route_run_entries (oenv : OcrEnv) (xenv : ExcelEnv)
    (items : List HistItem) (item_id save_dir : String) (hne : items ≠ []) :
    (generate_ocr_excel_from_history oenv xenv true (some ⟨some items⟩) item_id save_dir).entries
      = routeEntries oenv xenv 1 items := by
  unfold generate_ocr_excel_from_history
  rw [if_neg (by simp)]
  simp only []
  rw [if_neg hne]
  by_cases hfe : routeEntries oenv xenv 1 items = []
  · rw [if_pos hfe]
  · rw [if_neg hfe]
    cases (generate_excel xenv (routeEntries oenv xenv 1 items) save_dir).outcome with
    | ok p => rfl
    | error e => cases e <;> rfl

/-- For a non-empty history the route never answers with the
`No valid data to generate Excel` error: every item contributes an
entry, so `full_entries` cannot be empty. -/
theorem route_run_no_valid_data_unreachable (oenv : OcrEnv) (xenv : ExcelEnv)
    (items : List HistItem) (item_id save_dir : String) (hne : items ≠ []) :
    (generate_ocr_excel_from_history oenv xenv true (some ⟨some items⟩) item_id save_dir).response
      ≠ .error (.badRequest "No valid data to generate Excel") := by
  have hfe : routeEntries oenv xenv 1 items ≠ [] := by
    intro h
    apply hne
    have := routeEntries_length oenv xenv 1 items
    rw [h] at this
    exact List.length_eq_zero.mp this.symm
  unfold generate_ocr_excel_from_history
  rw [if_neg (by simp)]
  simp only []
  rw [if_neg hne, if_neg hfe]
  cases (generate_excel xenv (routeEntries oenv xenv 1 items) save_dir).outcome with
  | ok p => intro h; exact Except.noConfusion h
  | error e =>
    cases e <;> · intro h
                  have := Except.error.inj h
                  exact HttpErr.noConfusion this

/-- C10 counterexample.  A one-item history whose image file is missing:
the item is not skipped — it is passed to generation with empty
coordinates and an empty photo path — and the request succeeds with a
one-row report instead of failing with `No valid data to generate
Excel`. -/
theorem missing_image_not_skipped_counterexample :
    (generate_ocr_excel_from_history demoOcrEnvFail demoExcelEnvC3 true
        (some demoHistDoc) "64a1b2c3d4e5" "out").entries
      = [{ no := some (Val.num 1), jalur := some "A",
           latitude := some "", longitude := some "",
           kondisi := some "baik", keterangan := some "catatan",
           foto_path := some "" }] ∧
    (generate_ocr_excel_from_history demoOcrEnvFail demoExcelEnvC3 true
        (some demoHistDoc) "64a1b2c3d4e5" "out").response
      = .ok ⟨"out/output-enhanced-20231106-103000.xlsx",
             "ocr-history-64a1b2c3-20231106-103000.xlsx", xlsxMime⟩ := by
  exact ⟨rfl, rfl⟩

/-- C10 (amended).  When regenerating a report from stored history, an
entry whose image file is missing is logged and still included, with
empty coordinate strings and an empty photo path; an entry whose OCR
yields no pair is logged and still included, with empty coordinates but
its photo path kept; every item contributes exactly one entry, so the
`No valid data to generate Excel` error is unreachable once the
non-empty-history check has passed. -/
theorem history_regeneration_degrades (oenv : OcrEnv) (xenv : ExcelEnv)
    (items : List HistItem) (item_id save_dir : String) (hne : items ≠ []) :
    (generate_ocr_excel_from_history oenv xenv true (some ⟨some items⟩) item_id save_dir).entries.length
      = items.length ∧
    (∀ k item, items.get? k = some item →
      (item.foto_path.getD "" = "" ∨ xenv.fileExists (item.foto_path.getD "") = false) →
      (generate_ocr_excel_from_history oenv xenv true (some ⟨some items⟩) item_id save_dir).entries.get? k
        = some { no := some (Val.num (1 + k)), jalur := some (item.jalur.getD ""),
                 latitude := some "", longitude := some "",
                 kondisi := some (item.kondisi.getD ""),
                 keterangan := some (item.keterangan.getD ""),
                 foto_path := some "" }) ∧
    (∀ k item, items.get? k = some item →
      item.foto_path.getD "" ≠ "" → xenv.fileExists (item.foto_path.getD "") = true →
      ((extract_coordinates_with_validation oenv (item.foto_path.getD "")).result.1 = "" ∨
        (extract_coordinates_with_validation oenv (item.foto_path.getD "")).result.2 = "") →
      (generate_ocr_excel_from_history oenv xenv true (some ⟨some items⟩) item_id save_dir).entries.get? k
        = some { no := some (Val.num (1 + k)), jalur := some (item.jalur.getD ""),
                 latitude := some "", longitude := some "",
                 kondisi := some (item.kondisi.getD ""),
                 keterangan := some (item.keterangan.getD ""),
                 foto_path := some (item.foto_path.getD "") }) ∧
    (generate_ocr_excel_from_history oenv xenv true (some ⟨some items⟩) item_id save_dir).response
      ≠ .error (.badRequest "No valid data to generate Excel") := by
  have hent := route_run_entries oenv xenv items item_id save_dir hne
  refine ⟨?_, ?_, ?_, route_run_no_valid_data_unreachable oenv xenv items item_id save_dir hne⟩
  · rw [hent]
    exact routeEntries_length oenv xenv 1 items
  · intro k item hk hmiss
    rw [hent, routeEntries_get oenv xenv items 1 k item hk]
    unfold routeEntry
    rw [if_pos]
    rcases hmiss with h | h <;> simp [h]
  · intro k item hk hfp hex hocr
    rw [hent, routeEntries_get oenv xenv items 1 k item hk]
    unfold routeEntry
    rw [if_neg (by simp [hfp, hex])]
    simp only []
    rcases hocr with h | h <;> simp [h]

/-- Witness for C10 (amended) on the concrete one-item history with a
missing image file. -/
theorem history_regeneration_degrades_witness :
    (generate_ocr_excel_from_history demoOcrEnvFail demoExcelEnvC3 true
        (some ⟨some [⟨some "x.jpg", some "A", some "baik", some "catatan"⟩]⟩)
        "64a1b2c3d4e5" "out").entries.get? 0
      = some { no := some (Val.num 1), jalur := some "A",
               latitude := some "", longitude := some "",
               kondisi := some "baik", keterangan := some "catatan",
               foto_path := some "" } := by
  have h := history_regeneration_degrades demoOcrEnvFail demoExcelEnvC3
    [⟨some "x.jpg", some "A", some "baik", some "catatan"⟩] "64a1b2c3d4e5" "out" (by decide)
  exact h.2.1 0 ⟨some "x.jpg", some "A", some "baik", some "catatan"⟩ rfl (Or.inr rfl)

end OcrJasaMarga
